import Mathlib

/-!
# STM32N6 sample project: clock tracking and blink loop

Shallow embedding of `sample-project/src/system_stm32n6xx.c` and
`sample-project/src/main.c`.

* `uint32_t` values are natural numbers; every operation that can leave
  the 32-bit range (`+ 1U`, `*`, `ticks++`, a left shift stored into a
  register) is reduced modulo `2 ^ 32` explicitly.  The target is a
  Cortex-M55, so `unsigned long` (the type of `64000000UL`) is 32 bits wide
  as well.
* Division by zero is undefined behaviour in C; `udiv32` returns `none`
  there, so `SystemCoreClockUpdate` is a function into `Option`.
* The device header `stm32n6xx.h` is not part of the repository.  The
  bit-field masks and positions it would define are collected in
  `Layout` and every function takes the layout as a parameter.
-/

namespace STM32N6

/-! ## Machine integers -/

/-- Number of values of a `uint32_t`. -/
def U32 : Nat := 2 ^ 32

/-- Unsigned 32-bit addition. -/
def uadd32 (a b : Nat) : Nat := (a + b) % U32

/-- Unsigned 32-bit multiplication. -/
def umul32 (a b : Nat) : Nat := (a * b) % U32

/-- Unsigned division; a zero divisor has no defined result. -/
def udiv32 (a b : Nat) : Option Nat := if b = 0 then none else some (a / b)

/-! ## Register map -/

/-- Constants of `stm32n6xx.h` that the sources refer to.  A `_Pos` constant
is a bit index of a 32-bit register, the others are masks or field values. -/
structure Layout where
  PWR_VOSR_VOSRDY : Nat
  RCC_CR_HSEON : Nat
  RCC_CR_HSERDY : Nat
  RCC_CR_PLL1ON : Nat
  RCC_CR_PLL1RDY : Nat
  RCC_CFGR_SW : Nat
  RCC_CFGR_SW_PLL1 : Nat
  RCC_CFGR_SWS : Nat
  RCC_CFGR_SWS_PLL1 : Nat
  RCC_CFGR2_HPRE_Pos : Fin 32
  RCC_CFGR2_PPRE1_Pos : Fin 32
  RCC_CFGR2_PPRE2_Pos : Fin 32
  RCC_PLL1CFGR_PLL1SRC : Nat
  RCC_PLL1CFGR_PLL1SRC_HSE : Nat
  RCC_PLL1CFGR_PLL1RGE_1 : Nat
  RCC_PLL1CFGR_PLL1M : Nat
  RCC_PLL1CFGR_PLL1M_Pos : Fin 32
  RCC_PLL1DIVR_N1 : Nat
  RCC_PLL1DIVR_N1_Pos : Fin 32
  RCC_PLL1DIVR_P1 : Nat
  RCC_PLL1DIVR_P1_Pos : Fin 32
  deriving DecidableEq, Repr

/-- Registers read or written by the clock code, and the global
`SystemCoreClock`. -/
structure Machine where
  VOSR : Nat
  CR : Nat
  CFGR : Nat
  CFGR2 : Nat
  PLL1CFGR : Nat
  PLL1DIVR : Nat
  SystemCoreClock : Nat
  deriving DecidableEq, Repr

/-! ## system_stm32n6xx.c -/

/-- Value of `RCC->CFGR & RCC_CFGR_SWS`. -/
def swsField (L : Layout) (s : Machine) : Nat := s.CFGR &&& L.RCC_CFGR_SWS

/-- Value of `RCC->PLL1CFGR & RCC_PLL1CFGR_PLL1SRC`. -/
def pllSrcField (L : Layout) (s : Machine) : Nat :=
  s.PLL1CFGR &&& L.RCC_PLL1CFGR_PLL1SRC

/-- Value of `(RCC->PLL1CFGR & RCC_PLL1CFGR_PLL1M) >> RCC_PLL1CFGR_PLL1M_Pos`. -/
def pllMField (L : Layout) (s : Machine) : Nat :=
  (s.PLL1CFGR &&& L.RCC_PLL1CFGR_PLL1M) >>> L.RCC_PLL1CFGR_PLL1M_Pos.val

/-- Value of `(RCC->PLL1DIVR & RCC_PLL1DIVR_N1) >> RCC_PLL1DIVR_N1_Pos`. -/
def pllNField (L : Layout) (s : Machine) : Nat :=
  (s.PLL1DIVR &&& L.RCC_PLL1DIVR_N1) >>> L.RCC_PLL1DIVR_N1_Pos.val

/-- Value of `(RCC->PLL1DIVR & RCC_PLL1DIVR_P1) >> RCC_PLL1DIVR_P1_Pos`. -/
def pllPField (L : Layout) (s : Machine) : Nat :=
  (s.PLL1DIVR &&& L.RCC_PLL1DIVR_P1) >>> L.RCC_PLL1DIVR_P1_Pos.val

/-- The expression `(base / pllm) * plln / pllp` in `uint32_t` arithmetic. -/
def pllExpr (base pllm plln pllp : Nat) : Option Nat :=
  (udiv32 base pllm).bind fun q => udiv32 (umul32 q plln) pllp

/-- The function `void SystemCoreClockUpdate(void)`: the `switch` on the clock-source
status, returning the machine with the new `SystemCoreClock`. -/
def SystemCoreClockUpdate (L : Layout) (s : Machine) : Option Machine :=
  let tmp := swsField L s
  if tmp = 0x00 then
    some { s with SystemCoreClock := 64000000 }
  else if tmp = 0x04 then
    some { s with SystemCoreClock := 25000000 }
  else if tmp = 0x08 then
    let pllsource := pllSrcField L s
    let pllm := uadd32 (pllMField L s) 1
    let plln := uadd32 (pllNField L s) 1
    let pllp := uadd32 (pllPField L s) 1
    if pllsource = 0x00 then
      (pllExpr 64000000 pllm plln pllp).map fun f => { s with SystemCoreClock := f }
    else
      (pllExpr 25000000 pllm plln pllp).map fun f => { s with SystemCoreClock := f }
  else
    some { s with SystemCoreClock := 64000000 }

/-! ## An example register map -/

/-- A register map in the usual CMSIS style, used for concrete evaluations:
`SWS` is bits 3:2 of `CFGR` (so that PLL1 reads back as `0x08`), `PLL1SRC`
is bits 1:0, `PLL1RGE` bits 3:2 and `PLL1M` bits 13:8 of `PLL1CFGR`, `N1` is
bits 8:0 and `P1` bits 15:9 of `PLL1DIVR`. -/
def exampleLayout : Layout where
  PWR_VOSR_VOSRDY := 0x8000
  RCC_CR_HSEON := 0x10000
  RCC_CR_HSERDY := 0x20000
  RCC_CR_PLL1ON := 0x1000000
  RCC_CR_PLL1RDY := 0x2000000
  RCC_CFGR_SW := 0x03
  RCC_CFGR_SW_PLL1 := 0x02
  RCC_CFGR_SWS := 0x0C
  RCC_CFGR_SWS_PLL1 := 0x08
  RCC_CFGR2_HPRE_Pos := 0
  RCC_CFGR2_PPRE1_Pos := 4
  RCC_CFGR2_PPRE2_Pos := 8
  RCC_PLL1CFGR_PLL1SRC := 0x03
  RCC_PLL1CFGR_PLL1SRC_HSE := 0x02
  RCC_PLL1CFGR_PLL1RGE_1 := 0x08
  RCC_PLL1CFGR_PLL1M := 0x3F00
  RCC_PLL1CFGR_PLL1M_Pos := 8
  RCC_PLL1DIVR_N1 := 0x1FF
  RCC_PLL1DIVR_N1_Pos := 0
  RCC_PLL1DIVR_P1 := 0xFE00
  RCC_PLL1DIVR_P1_Pos := 9

/-- Reset-like machine: every register zero, `SystemCoreClock` at its
initial value `64000000`. -/
def resetMachine : Machine where
  VOSR := 0
  CR := 0
  CFGR := 0
  CFGR2 := 0
  PLL1CFGR := 0
  PLL1DIVR := 0
  SystemCoreClock := 64000000

/-- Machine with the given clock registers, everything else as after reset. -/
def clockRegs (cfgr pll1cfgr pll1divr : Nat) : Machine :=
  { resetMachine with CFGR := cfgr, PLL1CFGR := pll1cfgr, PLL1DIVR := pll1divr }

/-- Largest value the expression `(reg & mask) >> pos` can take. -/
def fieldMax (mask : Nat) (pos : Fin 32) : Nat := mask >>> pos.val

/-- A field is narrower than 32 bits: its decoded value fits in 31 bits. -/
def FieldNarrow (mask : Nat) (pos : Fin 32) : Prop := fieldMax mask pos < 2 ^ 31

instance (mask : Nat) (pos : Fin 32) : Decidable (FieldNarrow mask pos) :=
  inferInstanceAs (Decidable (fieldMax mask pos < 2 ^ 31))

/-- The frequency formula in the words of the specification:
`(base / M) * N / P` over the integers, each division truncating, where
`base` is 64,000,000 when the PLL source field is 0 and 25,000,000
otherwise and `M`, `N`, `P` are the stored fields plus one. -/
def specPllFrequency (L : Layout) (s : Machine) : Nat :=
  let base := if pllSrcField L s = 0 then 64000000 else 25000000
  (base / (pllMField L s + 1)) * (pllNField L s + 1) / (pllPField L s + 1)

/-! ## main.c: clock configuration -/

/-- What lies outside the C code while `SystemClock_Config` runs: the two
HAL macros it invokes and the progress the hardware makes on the registers
between two polls of a ready flag. -/
structure Env where
  HAL_RCC_PWR_CLK_ENABLE : Machine → Machine
  HAL_PWR_VOLTAGESCALING_CONFIG : Machine → Machine
  hw : Machine → Machine

/-- The loop `while (!ready) ;` on a volatile register: poll at most `fuel`
times, the hardware advancing between two polls.  `none` when the flag was
not seen within `fuel` polls. -/
def busyWait (hw : Machine → Machine) (ready : Machine → Bool) :
    Nat → Machine → Option Machine
  | 0, _ => none
  | fuel + 1, s => if ready s then some s else busyWait hw ready fuel (hw s)

/-- The function `void SystemClock_Config(void)`: the register writes in
program order, each `while` on a ready flag as a `busyWait`. -/
def SystemClock_Config (L : Layout) (E : Env) (fuel : Nat) (s : Machine) :
    Option Machine := do
  let s := E.HAL_RCC_PWR_CLK_ENABLE s
  let s := E.HAL_PWR_VOLTAGESCALING_CONFIG s
  let s ← busyWait E.hw (fun m => m.VOSR &&& L.PWR_VOSR_VOSRDY != 0) fuel s
  let s := { s with CR := s.CR ||| L.RCC_CR_HSEON }
  let s ← busyWait E.hw (fun m => m.CR &&& L.RCC_CR_HSERDY != 0) fuel s
  let s := { s with PLL1DIVR :=
    (((160 - 1) <<< L.RCC_PLL1DIVR_N1_Pos.val) |||
      ((2 - 1) <<< L.RCC_PLL1DIVR_P1_Pos.val)) % U32 }
  let s := { s with PLL1CFGR :=
    L.RCC_PLL1CFGR_PLL1RGE_1 ||| L.RCC_PLL1CFGR_PLL1SRC_HSE }
  let s := { s with CR := s.CR ||| L.RCC_CR_PLL1ON }
  let s ← busyWait E.hw (fun m => m.CR &&& L.RCC_CR_PLL1RDY != 0) fuel s
  let s := { s with CFGR2 :=
    ((0 <<< L.RCC_CFGR2_HPRE_Pos.val) ||| (3 <<< L.RCC_CFGR2_PPRE1_Pos.val) |||
      (2 <<< L.RCC_CFGR2_PPRE2_Pos.val)) % U32 }
  let s := { s with CFGR :=
    (s.CFGR &&& ((U32 - 1) ^^^ L.RCC_CFGR_SW)) ||| L.RCC_CFGR_SW_PLL1 }
  let s ← busyWait E.hw
    (fun m => m.CFGR &&& L.RCC_CFGR_SWS == L.RCC_CFGR_SWS_PLL1) fuel s
  some { s with SystemCoreClock := 400000000 }

/-- Hardware that reports a clock ready as soon as it is switched on: the
regulator is always ready, `HSERDY` follows `HSEON`, `PLL1RDY` follows
`PLL1ON` and the status field `SWS` follows the switch field `SW`
(shifted up by two bits in `exampleLayout`). -/
def promptHw (m : Machine) : Machine :=
  let L := exampleLayout
  let cr1 := if m.CR &&& L.RCC_CR_HSEON != 0 then m.CR ||| L.RCC_CR_HSERDY else m.CR
  let cr2 := if cr1 &&& L.RCC_CR_PLL1ON != 0 then cr1 ||| L.RCC_CR_PLL1RDY else cr1
  { m with
    VOSR := m.VOSR ||| L.PWR_VOSR_VOSRDY
    CR := cr2
    CFGR := (m.CFGR &&& ((U32 - 1) ^^^ L.RCC_CFGR_SWS)) |||
      ((m.CFGR &&& L.RCC_CFGR_SW) <<< 2) }

/-- Environment made of `promptHw` and HAL macros that touch no register of
`Machine`. -/
def promptEnv : Env where
  HAL_RCC_PWR_CLK_ENABLE := id
  HAL_PWR_VOLTAGESCALING_CONFIG := id
  hw := promptHw

/-- The bit fields that `SystemClock_Config` writes and
`SystemCoreClockUpdate` reads are pairwise disjoint 32-bit masks, and each
value written lies inside its field: `PLL1M`, `PLL1SRC` and `PLL1RGE_1` do
not overlap, `PLL1SRC_HSE` is a non-zero value of the `PLL1SRC` field, `N1`
and `P1` do not overlap, `159 << N1_Pos` fits in `N1` and `1 << P1_Pos` fits
in `P1`. -/
def Layout.PllFieldsDisjoint (L : Layout) : Prop :=
  L.RCC_PLL1CFGR_PLL1M &&& L.RCC_PLL1CFGR_PLL1SRC = 0 ∧
  L.RCC_PLL1CFGR_PLL1RGE_1 &&& L.RCC_PLL1CFGR_PLL1M = 0 ∧
  L.RCC_PLL1CFGR_PLL1RGE_1 &&& L.RCC_PLL1CFGR_PLL1SRC = 0 ∧
  L.RCC_PLL1CFGR_PLL1SRC_HSE &&& L.RCC_PLL1CFGR_PLL1SRC = L.RCC_PLL1CFGR_PLL1SRC_HSE ∧
  L.RCC_PLL1CFGR_PLL1SRC_HSE ≠ 0 ∧
  L.RCC_PLL1DIVR_P1 &&& L.RCC_PLL1DIVR_N1 = 0 ∧
  (159 <<< L.RCC_PLL1DIVR_N1_Pos.val) &&& L.RCC_PLL1DIVR_N1 =
    159 <<< L.RCC_PLL1DIVR_N1_Pos.val ∧
  (1 <<< L.RCC_PLL1DIVR_P1_Pos.val) &&& L.RCC_PLL1DIVR_P1 =
    1 <<< L.RCC_PLL1DIVR_P1_Pos.val ∧
  L.RCC_PLL1DIVR_N1 < U32 ∧
  L.RCC_PLL1DIVR_P1 < U32

instance (L : Layout) : Decidable L.PllFieldsDisjoint := by
  unfold Layout.PllFieldsDisjoint
  infer_instance

/-- The hardware leaves the PLL configuration registers as software wrote
them. -/
def Env.KeepsPllConfig (E : Env) : Prop :=
  ∀ m : Machine, (E.hw m).PLL1CFGR = m.PLL1CFGR ∧ (E.hw m).PLL1DIVR = m.PLL1DIVR

/-! ## main.c: tick counter and blink loop -/

/-- The volatile counter `ticks`, the level of the LED pin, and the number
of calls of `HAL_GPIO_TogglePin` made so far. -/
structure Blink where
  ticks : Nat
  led : Bool
  toggles : Nat
  deriving DecidableEq, Repr

/-- The handler `void SysTick_Handler(void)`: `ticks++` on a `uint32_t`. -/
def SysTick_Handler (s : Blink) : Blink :=
  { s with ticks := uadd32 s.ticks 1 }

/-- The call `HAL_GPIO_TogglePin(LED_PORT, LED_PIN)`: the pin level flips. -/
def HAL_GPIO_TogglePin (s : Blink) : Blink :=
  { s with led := !s.led, toggles := s.toggles + 1 }

/-- One iteration of the body of `while (1)` in `main`. -/
def main_loop_iteration (s : Blink) : Blink :=
  if s.ticks ≥ 500 then
    HAL_GPIO_TogglePin { s with ticks := 0 }
  else
    s

/-- One threshold crossing: 500 tick interrupts, then one main-loop
iteration. -/
def thresholdCrossing (s : Blink) : Blink :=
  main_loop_iteration (SysTick_Handler^[500] s)

/-- The two kinds of atomic step of the blink system. -/
inductive Step where
  | tick
  | loop
  deriving DecidableEq, Repr

/-- Effect of one step. -/
def Step.apply : Step → Blink → Blink
  | .tick, s => SysTick_Handler s
  | .loop, s => main_loop_iteration s

/-- Effect of an interleaving, given as the list of its steps in order. -/
def run (trace : List Step) (s : Blink) : Blink :=
  trace.foldl (fun acc st => st.apply acc) s

/-- Counter is at zero, as at program start. -/
def Blink.initial (s : Blink) : Prop := s.ticks = 0

/-- Number of tick steps at the end of an interleaving that no main-loop
iteration has followed yet, `n` being that number before the interleaving:
a tick adds one, a main-loop iteration starts the count again. -/
def trail (n : Nat) (trace : List Step) : Nat :=
  trace.foldl (fun acc st => match st with
    | .tick => acc + 1
    | .loop => 0) n

/-! ## Lemmas on field decoding -/

theorem field_le_fieldMax (x mask : Nat) (pos : Fin 32) :
    (x &&& mask) >>> pos.val ≤ fieldMax mask pos := by
  unfold fieldMax
  rw [Nat.shiftRight_eq_div_pow, Nat.shiftRight_eq_div_pow]
  exact Nat.div_le_div_right Nat.and_le_right

theorem uadd32_one_of_narrow {f mask : Nat} {pos : Fin 32}
    (hf : f ≤ fieldMax mask pos) (hn : FieldNarrow mask pos) :
    uadd32 f 1 = f + 1 := by
  unfold FieldNarrow at hn
  unfold uadd32 U32
  apply Nat.mod_eq_of_lt
  omega

theorem pllm_eq (L : Layout) (s : Machine)
    (hn : FieldNarrow L.RCC_PLL1CFGR_PLL1M L.RCC_PLL1CFGR_PLL1M_Pos) :
    uadd32 (pllMField L s) 1 = pllMField L s + 1 :=
  uadd32_one_of_narrow (field_le_fieldMax _ _ _) hn

theorem plln_eq (L : Layout) (s : Machine)
    (hn : FieldNarrow L.RCC_PLL1DIVR_N1 L.RCC_PLL1DIVR_N1_Pos) :
    uadd32 (pllNField L s) 1 = pllNField L s + 1 :=
  uadd32_one_of_narrow (field_le_fieldMax _ _ _) hn

theorem pllp_eq (L : Layout) (s : Machine)
    (hn : FieldNarrow L.RCC_PLL1DIVR_P1 L.RCC_PLL1DIVR_P1_Pos) :
    uadd32 (pllPField L s) 1 = pllPField L s + 1 :=
  uadd32_one_of_narrow (field_le_fieldMax _ _ _) hn

/-- With non-zero divisors the PLL expression is the truncating quotient of
the wrapped product. -/
theorem pllExpr_succ (base m n p : Nat) :
    pllExpr base (m + 1) n (p + 1) = some ((base / (m + 1)) * n % U32 / (p + 1)) := by
  simp [pllExpr, udiv32, umul32]

/-- The PLL branch of the `switch`. -/
theorem SystemCoreClockUpdate_pll_branch (L : Layout) (s : Machine)
    (hsws : swsField L s = 0x08) :
    SystemCoreClockUpdate L s =
      (pllExpr (if pllSrcField L s = 0 then 64000000 else 25000000)
        (uadd32 (pllMField L s) 1) (uadd32 (pllNField L s) 1)
        (uadd32 (pllPField L s) 1)).map
        fun f => { s with SystemCoreClock := f } := by
  unfold SystemCoreClockUpdate
  simp only [hsws]
  by_cases h : pllSrcField L s = 0 <;> simp [h]

/-- Whatever the register map, PLL source 0 with stored fields 0, 159, 0
(M=1, N=160, P=1) makes the product `64000000 * 160` wrap: the value stored
is 1,650,065,408 and the integer formula gives 10,240,000,000. -/
theorem SystemCoreClockUpdate_hsi_1_160_1 (L : Layout) (s : Machine)
    (hsws : swsField L s = 0x08) (hsrc : pllSrcField L s = 0)
    (hM : pllMField L s = 0) (hN : pllNField L s = 159) (hP : pllPField L s = 0) :
    SystemCoreClockUpdate L s = some { s with SystemCoreClock := 1650065408 } ∧
    specPllFrequency L s = 10240000000 := by
  have hval : pllExpr 64000000 (uadd32 0 1) (uadd32 159 1) (uadd32 0 1) =
      some 1650065408 := by decide
  constructor
  · rw [SystemCoreClockUpdate_pll_branch L s hsws, hsrc, hM, hN, hP, if_pos rfl, hval]
    rfl
  · simp [specPllFrequency, hsrc, hM, hN, hP]

/-- The `case 0x00` branch of the `switch`. -/
theorem SystemCoreClockUpdate_hsi_branch (L : Layout) (s : Machine)
    (h : swsField L s = 0x00) :
    SystemCoreClockUpdate L s = some { s with SystemCoreClock := 64000000 } := by
  simp [SystemCoreClockUpdate, h]

/-- The `case 0x04` branch of the `switch`. -/
theorem SystemCoreClockUpdate_hse_branch (L : Layout) (s : Machine)
    (h : swsField L s = 0x04) :
    SystemCoreClockUpdate L s = some { s with SystemCoreClock := 25000000 } := by
  simp [SystemCoreClockUpdate, h]

/-- The `default` branch of the `switch`. -/
theorem SystemCoreClockUpdate_default_branch (L : Layout) (s : Machine)
    (h0 : swsField L s ≠ 0x00) (h4 : swsField L s ≠ 0x04) (h8 : swsField L s ≠ 0x08) :
    SystemCoreClockUpdate L s = some { s with SystemCoreClock := 64000000 } := by
  simp [SystemCoreClockUpdate, h0, h4, h8]

/-! ## Lemmas on the clock configuration -/

/-- A busy-wait that returns has seen its flag. -/
theorem busyWait_ready (hw : Machine → Machine) (ready : Machine → Bool)
    (fuel : Nat) (s s' : Machine) (h : busyWait hw ready fuel s = some s') :
    ready s' = true := by
  induction fuel generalizing s with
  | zero => simp [busyWait] at h
  | succ k ih =>
    unfold busyWait at h
    by_cases hr : ready s = true
    · rw [if_pos hr] at h
      cases h
      exact hr
    · rw [if_neg hr] at h
      exact ih _ h

/-- A property that the hardware preserves survives a busy-wait. -/
theorem busyWait_preserves (hw : Machine → Machine) (ready : Machine → Bool)
    (P : Machine → Prop) (hP : ∀ m, P m → P (hw m))
    (fuel : Nat) (s s' : Machine) (h : busyWait hw ready fuel s = some s')
    (hs : P s) : P s' := by
  induction fuel generalizing s with
  | zero => simp [busyWait] at h
  | succ k ih =>
    unfold busyWait at h
    by_cases hr : ready s = true
    · rw [if_pos hr] at h
      cases h
      exact hs
    · rw [if_neg hr] at h
      exact ih _ h (hP _ hs)

/-- Value that `SystemClock_Config` stores into `RCC->PLL1DIVR`. -/
theorem pll1divr_written_lt (L : Layout) (hd : L.PllFieldsDisjoint) :
    (159 <<< L.RCC_PLL1DIVR_N1_Pos.val) ||| (1 <<< L.RCC_PLL1DIVR_P1_Pos.val) < U32 := by
  obtain ⟨_, _, _, _, _, _, hn, hp, hnlt, hplt⟩ := hd
  have h1 : 159 <<< L.RCC_PLL1DIVR_N1_Pos.val < 2 ^ 32 := by
    have := @Nat.and_le_right (159 <<< L.RCC_PLL1DIVR_N1_Pos.val) L.RCC_PLL1DIVR_N1
    rw [hn] at this
    unfold U32 at hnlt
    omega
  have h2 : 1 <<< L.RCC_PLL1DIVR_P1_Pos.val < 2 ^ 32 := by
    have := @Nat.and_le_right (1 <<< L.RCC_PLL1DIVR_P1_Pos.val) L.RCC_PLL1DIVR_P1
    rw [hp] at this
    unfold U32 at hplt
    omega
  exact Nat.or_lt_two_pow h1 h2

/-- Decoding `N1` from the value stored into `RCC->PLL1DIVR` gives 159. -/
theorem decode_N1_written (L : Layout) (hd : L.PllFieldsDisjoint) :
    ((((159 <<< L.RCC_PLL1DIVR_N1_Pos.val) ||| (1 <<< L.RCC_PLL1DIVR_P1_Pos.val)) % U32)
      &&& L.RCC_PLL1DIVR_N1) >>> L.RCC_PLL1DIVR_N1_Pos.val = 159 := by
  rw [Nat.mod_eq_of_lt (pll1divr_written_lt L hd)]
  obtain ⟨_, _, _, _, _, hpn, hn, hp, _, _⟩ := hd
  have hb : (1 <<< L.RCC_PLL1DIVR_P1_Pos.val) &&& L.RCC_PLL1DIVR_N1 = 0 := by
    rw [← hp, Nat.and_assoc, hpn, Nat.and_zero]
  rw [Nat.and_comm, Nat.and_or_distrib_left, Nat.and_comm, hn, Nat.and_comm, hb,
    Nat.or_zero, Nat.shiftLeft_shiftRight]

/-- Decoding `P1` from the value stored into `RCC->PLL1DIVR` gives 1. -/
theorem decode_P1_written (L : Layout) (hd : L.PllFieldsDisjoint) :
    ((((159 <<< L.RCC_PLL1DIVR_N1_Pos.val) ||| (1 <<< L.RCC_PLL1DIVR_P1_Pos.val)) % U32)
      &&& L.RCC_PLL1DIVR_P1) >>> L.RCC_PLL1DIVR_P1_Pos.val = 1 := by
  rw [Nat.mod_eq_of_lt (pll1divr_written_lt L hd)]
  obtain ⟨_, _, _, _, _, hpn, hn, hp, _, _⟩ := hd
  have ha : (159 <<< L.RCC_PLL1DIVR_N1_Pos.val) &&& L.RCC_PLL1DIVR_P1 = 0 := by
    rw [← hn, Nat.and_assoc, Nat.and_comm L.RCC_PLL1DIVR_N1, hpn, Nat.and_zero]
  rw [Nat.and_comm, Nat.and_or_distrib_left, Nat.and_comm, ha, Nat.and_comm, hp,
    Nat.zero_or, Nat.shiftLeft_shiftRight]

/-- Decoding `PLL1M` from the value stored into `RCC->PLL1CFGR` gives 0:
the field is never written. -/
theorem decode_PLL1M_written (L : Layout) (hd : L.PllFieldsDisjoint) :
    ((L.RCC_PLL1CFGR_PLL1RGE_1 ||| L.RCC_PLL1CFGR_PLL1SRC_HSE) &&& L.RCC_PLL1CFGR_PLL1M)
      >>> L.RCC_PLL1CFGR_PLL1M_Pos.val = 0 := by
  obtain ⟨hms, hrm, _, hin, _, _, _, _, _, _⟩ := hd
  have hb : L.RCC_PLL1CFGR_PLL1SRC_HSE &&& L.RCC_PLL1CFGR_PLL1M = 0 := by
    rw [← hin, Nat.and_assoc, Nat.and_comm L.RCC_PLL1CFGR_PLL1SRC, hms, Nat.and_zero]
  rw [Nat.and_comm, Nat.and_or_distrib_left, Nat.and_comm, hrm, Nat.and_comm, hb,
    Nat.or_zero, Nat.zero_shiftRight]

/-- The PLL source read back from the value stored into `RCC->PLL1CFGR` is
`PLL1SRC_HSE`, which is not 0. -/
theorem decode_PLL1SRC_written (L : Layout) (hd : L.PllFieldsDisjoint) :
    (L.RCC_PLL1CFGR_PLL1RGE_1 ||| L.RCC_PLL1CFGR_PLL1SRC_HSE) &&& L.RCC_PLL1CFGR_PLL1SRC
      ≠ 0 := by
  obtain ⟨_, _, hrs, hin, hne, _, _, _, _, _⟩ := hd
  rw [Nat.and_comm, Nat.and_or_distrib_left, Nat.and_comm, hrs, Nat.and_comm, hin,
    Nat.zero_or]
  exact hne

/-- State in which `SystemClock_Config` returns: the PLL registers hold the
values written, the status field reports `SWS_PLL1`, and `SystemCoreClock`
is 400,000,000. -/
theorem SystemClock_Config_post (L : Layout) (E : Env) (fuel : Nat) (s s' : Machine)
    (hhw : E.KeepsPllConfig) (hrun : SystemClock_Config L E fuel s = some s') :
    s'.PLL1DIVR = ((159 <<< L.RCC_PLL1DIVR_N1_Pos.val) |||
      (1 <<< L.RCC_PLL1DIVR_P1_Pos.val)) % U32 ∧
    s'.PLL1CFGR = L.RCC_PLL1CFGR_PLL1RGE_1 ||| L.RCC_PLL1CFGR_PLL1SRC_HSE ∧
    s'.CFGR &&& L.RCC_CFGR_SWS = L.RCC_CFGR_SWS_PLL1 ∧
    s'.SystemCoreClock = 400000000 := by
  unfold SystemClock_Config at hrun
  simp only [bind, Option.bind_eq_some] at hrun
  obtain ⟨s1, _, s2, _, s3, h3, s4, h4, hfin⟩ := hrun
  have hP3 := busyWait_preserves E.hw _
    (fun m => m.PLL1DIVR = ((159 <<< L.RCC_PLL1DIVR_N1_Pos.val) |||
        (1 <<< L.RCC_PLL1DIVR_P1_Pos.val)) % U32 ∧
      m.PLL1CFGR = L.RCC_PLL1CFGR_PLL1RGE_1 ||| L.RCC_PLL1CFGR_PLL1SRC_HSE)
    (fun m hm => ⟨(hhw m).2.trans hm.1, (hhw m).1.trans hm.2⟩) fuel _ s3 h3 ⟨rfl, rfl⟩
  have hP4 := busyWait_preserves E.hw _
    (fun m => m.PLL1DIVR = ((159 <<< L.RCC_PLL1DIVR_N1_Pos.val) |||
        (1 <<< L.RCC_PLL1DIVR_P1_Pos.val)) % U32 ∧
      m.PLL1CFGR = L.RCC_PLL1CFGR_PLL1RGE_1 ||| L.RCC_PLL1CFGR_PLL1SRC_HSE)
    (fun m hm => ⟨(hhw m).2.trans hm.1, (hhw m).1.trans hm.2⟩) fuel _ s4 h4 hP3
  have hr4 := busyWait_ready E.hw _ fuel _ s4 h4
  simp only [beq_iff_eq] at hr4
  cases hfin
  exact ⟨hP4.1, hP4.2, hr4, rfl⟩

/-! ## Lemmas on the blink system -/

/-- As long as the counter does not wrap, `n` tick interrupts add `n`. -/
theorem SysTick_Handler_iterate (n : Nat) (s : Blink) (h : s.ticks + n < U32) :
    SysTick_Handler^[n] s = { s with ticks := s.ticks + n } := by
  induction n generalizing s with
  | zero => rfl
  | succ k ih =>
    have h1 : uadd32 s.ticks 1 = s.ticks + 1 := by
      unfold uadd32
      exact Nat.mod_eq_of_lt (by omega)
    rw [Function.iterate_succ_apply, ih]
    · simp only [SysTick_Handler, h1]
      congr 1
      omega
    · simp only [SysTick_Handler, h1]
      omega

/-- Above the threshold the loop body resets the counter and toggles. -/
theorem main_loop_iteration_ge (s : Blink) (h : 500 ≤ s.ticks) :
    main_loop_iteration s = { ticks := 0, led := !s.led, toggles := s.toggles + 1 } := by
  simp [main_loop_iteration, HAL_GPIO_TogglePin, h]

/-- Below the threshold the loop body does nothing. -/
theorem main_loop_iteration_lt (s : Blink) (h : s.ticks < 500) :
    main_loop_iteration s = s := by
  have h2 : ¬ 500 ≤ s.ticks := by omega
  simp [main_loop_iteration, h2]

/-- After a loop iteration the counter is below the threshold. -/
theorem main_loop_iteration_ticks_lt (s : Blink) :
    (main_loop_iteration s).ticks < 500 := by
  by_cases h : 500 ≤ s.ticks
  · rw [main_loop_iteration_ge s h]
    show 0 < 500
    decide
  · rw [main_loop_iteration_lt s (by omega)]
    omega

/-- A threshold crossing from a counter that does not wrap. -/
theorem thresholdCrossing_eq (s : Blink) (h : s.ticks + 500 < U32) :
    thresholdCrossing s = { ticks := 0, led := !s.led, toggles := s.toggles + 1 } := by
  unfold thresholdCrossing
  rw [SysTick_Handler_iterate 500 s h, main_loop_iteration_ge]
  simp

theorem run_append (t1 t2 : List Step) (s : Blink) :
    run (t1 ++ t2) s = run t2 (run t1 s) := by
  simp [run, List.foldl_append]

theorem run_replicate_tick (n : Nat) (s : Blink) :
    run (List.replicate n Step.tick) s = SysTick_Handler^[n] s := by
  induction n generalizing s with
  | zero => rfl
  | succ k ih =>
    rw [List.replicate_succ, Function.iterate_succ_apply]
    simp only [run, List.foldl_cons, Step.apply]
    exact ih (SysTick_Handler s)

/-- One tick raises the counter by at most one. -/
theorem SysTick_Handler_ticks_le (s : Blink) :
    (SysTick_Handler s).ticks ≤ s.ticks + 1 := by
  show (s.ticks + 1) % U32 ≤ s.ticks + 1
  exact Nat.mod_le _ _

/-- Along any interleaving the counter stays within 499 of the number of
ticks that no main-loop iteration has followed. -/
theorem run_ticks_le_trail (trace : List Step) (s : Blink) (n : Nat)
    (h : s.ticks ≤ 499 + n) : (run trace s).ticks ≤ 499 + trail n trace := by
  induction trace generalizing s n with
  | nil => exact h
  | cons st rest ih =>
    cases st with
    | tick =>
      have hstep := SysTick_Handler_ticks_le s
      exact ih (SysTick_Handler s) (n + 1) (by omega)
    | loop =>
      have hstep := main_loop_iteration_ticks_lt s
      exact ih (main_loop_iteration s) 0 (by omega)

/-- No tick is outstanding after an interleaving that ends with a main-loop
iteration. -/
theorem trail_append_loop (n : Nat) (init : List Step) :
    trail n (init ++ [Step.loop]) = 0 := by
  simp [trail, List.foldl_append]

/-- The bound of `run_ticks_le_trail` is attained: 499 ticks, a main-loop
iteration (which finds 499 and does nothing) and one more tick leave the
counter at 500 with one tick outstanding. -/
theorem run_ticks_eq_bound :
    (run (List.replicate 499 Step.tick ++ [Step.loop, Step.tick]) ⟨0, false, 0⟩).ticks =
      499 + trail 0 (List.replicate 499 Step.tick ++ [Step.loop, Step.tick]) := by
  have ht : trail 0 (List.replicate 499 Step.tick ++ [Step.loop, Step.tick]) = 1 := by
    unfold trail
    rw [List.foldl_append]
    rfl
  have hr : run (List.replicate 499 Step.tick) ⟨0, false, 0⟩ = ⟨499, false, 0⟩ := by
    rw [run_replicate_tick, SysTick_Handler_iterate 499 _ (by decide)]
  rw [ht, run_append, hr]
  decide

/-! ## Theorems -/

/-- C2: with clock source PLL1, PLL source selector 0 (internal oscillator,
64,000,000) and stored fields 4, 159, 1 (M=5, N=160, P=2),
`SystemCoreClockUpdate` sets `SystemCoreClock` to 1,024,000,000. -/
theorem SystemCoreClockUpdate_hsi_5_160_2 (L : Layout) (s : Machine)
    (hsws : swsField L s = 0x08) (hsrc : pllSrcField L s = 0)
    (hM : pllMField L s = 4) (hN : pllNField L s = 159) (hP : pllPField L s = 1) :
    SystemCoreClockUpdate L s = some { s with SystemCoreClock := 1024000000 } := by
  have hval : pllExpr 64000000 (uadd32 4 1) (uadd32 159 1) (uadd32 1 1) =
      some 1024000000 := by decide
  rw [SystemCoreClockUpdate_pll_branch L s hsws, hsrc, hM, hN, hP, if_pos rfl, hval]
  rfl

theorem SystemCoreClockUpdate_hsi_5_160_2_witness :
    SystemCoreClockUpdate exampleLayout (clockRegs 0x08 0x0400 0x029F) =
      some { clockRegs 0x08 0x0400 0x029F with SystemCoreClock := 1024000000 } :=
  SystemCoreClockUpdate_hsi_5_160_2 exampleLayout (clockRegs 0x08 0x0400 0x029F)
    (by decide) (by decide) (by decide) (by decide) (by decide)

/-- C3: with clock source PLL1, a non-zero PLL source selector (external
oscillator, 25,000,000) and stored fields 4, 159, 1 (M=5, N=160, P=2),
`SystemCoreClockUpdate` sets `SystemCoreClock` to 400,000,000. -/
theorem SystemCoreClockUpdate_hse_5_160_2 (L : Layout) (s : Machine)
    (hsws : swsField L s = 0x08) (hsrc : pllSrcField L s ≠ 0)
    (hM : pllMField L s = 4) (hN : pllNField L s = 159) (hP : pllPField L s = 1) :
    SystemCoreClockUpdate L s = some { s with SystemCoreClock := 400000000 } := by
  have hval : pllExpr 25000000 (uadd32 4 1) (uadd32 159 1) (uadd32 1 1) =
      some 400000000 := by decide
  rw [SystemCoreClockUpdate_pll_branch L s hsws, hM, hN, hP, if_neg hsrc, hval]
  rfl

theorem SystemCoreClockUpdate_hse_5_160_2_witness :
    SystemCoreClockUpdate exampleLayout (clockRegs 0x08 0x0402 0x029F) =
      some { clockRegs 0x08 0x0402 0x029F with SystemCoreClock := 400000000 } :=
  SystemCoreClockUpdate_hse_5_160_2 exampleLayout (clockRegs 0x08 0x0402 0x029F)
    (by decide) (by decide) (by decide) (by decide) (by decide)

/-- C4: `SystemCoreClockUpdate` sets `SystemCoreClock` to 64,000,000 when
the clock-source status is `0x00`, to 25,000,000 when it is `0x04`, and to
64,000,000 when it is anything other than `0x00`, `0x04`, `0x08`; in these
cases two machines that agree on `RCC->CFGR` get the same value, whatever
their PLL registers and previous `SystemCoreClock`. -/
theorem SystemCoreClockUpdate_fixed_sources (L : Layout) (s : Machine) :
    (swsField L s = 0x00 →
      SystemCoreClockUpdate L s = some { s with SystemCoreClock := 64000000 }) ∧
    (swsField L s = 0x04 →
      SystemCoreClockUpdate L s = some { s with SystemCoreClock := 25000000 }) ∧
    (swsField L s ≠ 0x00 → swsField L s ≠ 0x04 → swsField L s ≠ 0x08 →
      SystemCoreClockUpdate L s = some { s with SystemCoreClock := 64000000 }) ∧
    (swsField L s ≠ 0x08 → ∀ t : Machine, t.CFGR = s.CFGR →
      (SystemCoreClockUpdate L t).map (fun m => m.SystemCoreClock) =
        (SystemCoreClockUpdate L s).map (fun m => m.SystemCoreClock)) := by
  refine ⟨SystemCoreClockUpdate_hsi_branch L s, SystemCoreClockUpdate_hse_branch L s,
    SystemCoreClockUpdate_default_branch L s, ?_⟩
  intro h8 t ht
  have hst : swsField L t = swsField L s := by
    simp [swsField, ht]
  unfold SystemCoreClockUpdate
  simp only [hst, if_neg h8]
  by_cases h0 : swsField L s = 0x00
  · simp [h0]
  · by_cases h4 : swsField L s = 0x04
    · simp [h4]
    · simp [h0, h4]

theorem SystemCoreClockUpdate_fixed_sources_witness :
    SystemCoreClockUpdate exampleLayout (clockRegs 0x00 0x0402 0x029F) =
      some { clockRegs 0x00 0x0402 0x029F with SystemCoreClock := 64000000 } ∧
    SystemCoreClockUpdate exampleLayout (clockRegs 0x04 0x0402 0x029F) =
      some { clockRegs 0x04 0x0402 0x029F with SystemCoreClock := 25000000 } ∧
    SystemCoreClockUpdate exampleLayout (clockRegs 0x0C 0x0402 0x029F) =
      some { clockRegs 0x0C 0x0402 0x029F with SystemCoreClock := 64000000 } ∧
    (SystemCoreClockUpdate exampleLayout
        { clockRegs 0x0C 0 0 with SystemCoreClock := 7 }).map
        (fun m => m.SystemCoreClock) =
      (SystemCoreClockUpdate exampleLayout (clockRegs 0x0C 0x0402 0x029F)).map
        (fun m => m.SystemCoreClock) :=
  ⟨(SystemCoreClockUpdate_fixed_sources exampleLayout
      (clockRegs 0x00 0x0402 0x029F)).1 (by decide),
   (SystemCoreClockUpdate_fixed_sources exampleLayout
      (clockRegs 0x04 0x0402 0x029F)).2.1 (by decide),
   (SystemCoreClockUpdate_fixed_sources exampleLayout
      (clockRegs 0x0C 0x0402 0x029F)).2.2.1 (by decide) (by decide) (by decide),
   (SystemCoreClockUpdate_fixed_sources exampleLayout
      (clockRegs 0x0C 0x0402 0x029F)).2.2.2 (by decide) _ rfl⟩

/-- C10: when the `PLL1M` and `P1` fields are narrower than 32 bits, the
divisors `pllm` and `pllp` of the PLL branch are at least 1 for every
content of the registers, and `SystemCoreClockUpdate` always returns,
having assigned `SystemCoreClock` and changed nothing else. -/
theorem SystemCoreClockUpdate_total (L : Layout) (s : Machine)
    (hM : FieldNarrow L.RCC_PLL1CFGR_PLL1M L.RCC_PLL1CFGR_PLL1M_Pos)
    (hP : FieldNarrow L.RCC_PLL1DIVR_P1 L.RCC_PLL1DIVR_P1_Pos) :
    1 ≤ uadd32 (pllMField L s) 1 ∧ 1 ≤ uadd32 (pllPField L s) 1 ∧
    ∃ f : Nat, SystemCoreClockUpdate L s = some { s with SystemCoreClock := f } := by
  refine ⟨?_, ?_, ?_⟩
  · rw [pllm_eq L s hM]; omega
  · rw [pllp_eq L s hP]; omega
  · by_cases h8 : swsField L s = 0x08
    · rw [SystemCoreClockUpdate_pll_branch L s h8, pllm_eq L s hM, pllp_eq L s hP,
        pllExpr_succ]
      exact ⟨_, rfl⟩
    · by_cases h0 : swsField L s = 0x00
      · exact ⟨_, SystemCoreClockUpdate_hsi_branch L s h0⟩
      · by_cases h4 : swsField L s = 0x04
        · exact ⟨_, SystemCoreClockUpdate_hse_branch L s h4⟩
        · exact ⟨_, SystemCoreClockUpdate_default_branch L s h0 h4 h8⟩

theorem SystemCoreClockUpdate_total_witness :
    1 ≤ uadd32 (pllMField exampleLayout (clockRegs 0x08 0xFFFFFFFF 0xFFFFFFFF)) 1 ∧
    1 ≤ uadd32 (pllPField exampleLayout (clockRegs 0x08 0xFFFFFFFF 0xFFFFFFFF)) 1 ∧
    ∃ f : Nat, SystemCoreClockUpdate exampleLayout (clockRegs 0x08 0xFFFFFFFF 0xFFFFFFFF) =
      some { clockRegs 0x08 0xFFFFFFFF 0xFFFFFFFF with SystemCoreClock := f } :=
  SystemCoreClockUpdate_total exampleLayout (clockRegs 0x08 0xFFFFFFFF 0xFFFFFFFF)
    (by decide) (by decide)

/-- C1 (as stated) fails: with clock source PLL1, PLL source 0 and stored
fields 0, 159, 0 (M=1, N=160, P=1) the integer formula gives 10,240,000,000
while `SystemCoreClockUpdate` stores 1,650,065,408, the product having
wrapped modulo `2 ^ 32`. -/
theorem SystemCoreClockUpdate_pll_formula_counterexample :
    swsField exampleLayout (clockRegs 0x08 0 159) = 0x08 ∧
    specPllFrequency exampleLayout (clockRegs 0x08 0 159) = 10240000000 ∧
    SystemCoreClockUpdate exampleLayout (clockRegs 0x08 0 159) =
      some { clockRegs 0x08 0 159 with SystemCoreClock := 1650065408 } ∧
    SystemCoreClockUpdate exampleLayout (clockRegs 0x08 0 159) ≠
      some { clockRegs 0x08 0 159 with
        SystemCoreClock := specPllFrequency exampleLayout (clockRegs 0x08 0 159) } := by
  decide

/-- C1 (amended): with clock source PLL1 and fields narrower than 32 bits,
`SystemCoreClockUpdate` sets `SystemCoreClock` to
`((base / M) * N mod 2 ^ 32) / P`, where `base` is 64,000,000 when the
PLL source field is 0 and 25,000,000 otherwise, `M`, `N`, `P` are the stored
fields plus one, and both divisions truncate; whenever `(base / M) * N` is
below `2 ^ 32` this is the integer formula `(base / M) * N / P`. -/
theorem SystemCoreClockUpdate_pll (L : Layout) (s : Machine)
    (hsws : swsField L s = 0x08)
    (hM : FieldNarrow L.RCC_PLL1CFGR_PLL1M L.RCC_PLL1CFGR_PLL1M_Pos)
    (hN : FieldNarrow L.RCC_PLL1DIVR_N1 L.RCC_PLL1DIVR_N1_Pos)
    (hP : FieldNarrow L.RCC_PLL1DIVR_P1 L.RCC_PLL1DIVR_P1_Pos) :
    SystemCoreClockUpdate L s = some { s with SystemCoreClock :=
      ((if pllSrcField L s = 0 then 64000000 else 25000000) / (pllMField L s + 1)) *
        (pllNField L s + 1) % 2 ^ 32 / (pllPField L s + 1) } ∧
    (((if pllSrcField L s = 0 then 64000000 else 25000000) / (pllMField L s + 1)) *
        (pllNField L s + 1) < 2 ^ 32 →
      SystemCoreClockUpdate L s =
        some { s with SystemCoreClock := specPllFrequency L s }) := by
  have hmain : SystemCoreClockUpdate L s = some { s with SystemCoreClock :=
      ((if pllSrcField L s = 0 then 64000000 else 25000000) / (pllMField L s + 1)) *
        (pllNField L s + 1) % 2 ^ 32 / (pllPField L s + 1) } := by
    rw [SystemCoreClockUpdate_pll_branch L s hsws, pllm_eq L s hM, plln_eq L s hN,
      pllp_eq L s hP, pllExpr_succ]
    rfl
  refine ⟨hmain, ?_⟩
  intro hfit
  rw [hmain, Nat.mod_eq_of_lt hfit]
  rfl

theorem SystemCoreClockUpdate_pll_witness :
    SystemCoreClockUpdate exampleLayout (clockRegs 0x08 0 0x04A0) =
      some { clockRegs 0x08 0 0x04A0 with SystemCoreClock := 571355136 } ∧
    SystemCoreClockUpdate exampleLayout (clockRegs 0x08 0x0402 0x029F) =
      some { clockRegs 0x08 0x0402 0x029F with SystemCoreClock := 400000000 } :=
  ⟨(SystemCoreClockUpdate_pll exampleLayout (clockRegs 0x08 0 0x04A0)
      (by decide) (by decide) (by decide) (by decide)).1,
   (SystemCoreClockUpdate_pll exampleLayout (clockRegs 0x08 0x0402 0x029F)
      (by decide) (by decide) (by decide) (by decide)).2 (by decide)⟩

/-- C6: one iteration of the main loop body resets the counter to 0 and
toggles the LED exactly once when the counter is at least 500, and changes
nothing when it is below 500; from counter 0, after 500 calls of
`SysTick_Handler` the next iteration resets and toggles, after 499 calls it
does neither. -/
theorem main_loop_iteration_threshold (s : Blink) :
    (500 ≤ s.ticks → main_loop_iteration s =
      { ticks := 0, led := !s.led, toggles := s.toggles + 1 }) ∧
    (s.ticks < 500 → main_loop_iteration s = s) ∧
    (s.ticks = 0 → main_loop_iteration (SysTick_Handler^[500] s) =
      { ticks := 0, led := !s.led, toggles := s.toggles + 1 }) ∧
    (s.ticks = 0 → SysTick_Handler^[499] s = { s with ticks := 499 } ∧
      main_loop_iteration (SysTick_Handler^[499] s) = { s with ticks := 499 }) := by
  refine ⟨main_loop_iteration_ge s, main_loop_iteration_lt s, ?_, ?_⟩
  · intro h0
    have h := thresholdCrossing_eq s (by rw [h0]; decide)
    exact h
  · intro h0
    have h := SysTick_Handler_iterate 499 s (by rw [h0]; decide)
    rw [h0] at h
    rw [h]
    exact ⟨rfl, main_loop_iteration_lt _ (show 0 + 499 < 500 by decide)⟩

theorem main_loop_iteration_threshold_witness :
    main_loop_iteration ⟨500, false, 0⟩ = ⟨0, true, 1⟩ ∧
    main_loop_iteration ⟨499, false, 0⟩ = ⟨499, false, 0⟩ ∧
    main_loop_iteration (SysTick_Handler^[500] ⟨0, true, 3⟩) = ⟨0, false, 4⟩ ∧
    main_loop_iteration (SysTick_Handler^[499] ⟨0, true, 3⟩) = ⟨499, true, 3⟩ :=
  ⟨(main_loop_iteration_threshold ⟨500, false, 0⟩).1 (by decide),
   (main_loop_iteration_threshold ⟨499, false, 0⟩).2.1 (by decide),
   (main_loop_iteration_threshold ⟨0, true, 3⟩).2.2.1 rfl,
   ((main_loop_iteration_threshold ⟨0, true, 3⟩).2.2.2 rfl).2⟩

/-- C7: from a counter that 500 ticks do not wrap (in particular from 0),
one threshold crossing leaves the LED at the opposite level and the counter
at 0, and two consecutive crossings leave the LED at its original level and
the counter at 0, for every initial LED level. -/
theorem thresholdCrossing_toggles (s : Blink) (h : s.ticks + 500 < U32) :
    (thresholdCrossing s).led = !s.led ∧
    (thresholdCrossing s).ticks = 0 ∧
    (thresholdCrossing (thresholdCrossing s)).led = s.led ∧
    (thresholdCrossing (thresholdCrossing s)).ticks = 0 ∧
    (thresholdCrossing (thresholdCrossing s)).toggles = s.toggles + 2 := by
  have h1 := thresholdCrossing_eq s h
  have h2 := thresholdCrossing_eq (thresholdCrossing s)
    (by rw [h1]; show 0 + 500 < U32; decide)
  rw [h2, h1]
  simp

theorem thresholdCrossing_toggles_witness :
    (thresholdCrossing ⟨0, true, 0⟩).led = false ∧
    (thresholdCrossing ⟨0, true, 0⟩).ticks = 0 ∧
    (thresholdCrossing (thresholdCrossing ⟨0, true, 0⟩)).led = true ∧
    (thresholdCrossing (thresholdCrossing ⟨0, true, 0⟩)).ticks = 0 ∧
    (thresholdCrossing (thresholdCrossing ⟨0, true, 0⟩)).toggles = 0 + 2 :=
  thresholdCrossing_toggles ⟨0, true, 0⟩ (by decide)

/-- C9 (as stated) fails: 500 tick interrupts from counter 0, with no
main-loop iteration in between, reach counter 500, which is not below the
threshold. -/
theorem ticks_below_threshold_counterexample :
    Blink.initial ⟨0, false, 0⟩ ∧
    (run (List.replicate 500 Step.tick) ⟨0, false, 0⟩).ticks = 500 ∧
    ¬ (run (List.replicate 500 Step.tick) ⟨0, false, 0⟩).ticks < 500 := by
  have h : run (List.replicate 500 Step.tick) ⟨0, false, 0⟩ = ⟨500, false, 0⟩ := by
    rw [run_replicate_tick, SysTick_Handler_iterate 500 _ (by decide)]
  rw [h]
  exact ⟨rfl, rfl, by decide⟩

/-- C9 (amended): in every state reached from counter 0 by any interleaving
of tick interrupts and main-loop iterations, the counter is at most 499 plus
the number of tick steps taken since the last main-loop iteration (since the
start when there was none); in particular it is in `[0, 500)` when the
interleaving is empty or ends with a main-loop iteration. -/
theorem ticks_bounded_by_outstanding_ticks (trace : List Step) (s : Blink)
    (h0 : s.initial) :
    (run trace s).ticks ≤ 499 + trail 0 trace ∧
    (trace = [] ∨ trace.getLast? = some Step.loop → (run trace s).ticks < 500) := by
  have hs : s.ticks ≤ 499 + 0 := by
    have : s.ticks = 0 := h0
    omega
  have hmain := run_ticks_le_trail trace s 0 hs
  refine ⟨hmain, ?_⟩
  intro hlast
  have htrail : trail 0 trace = 0 := by
    rcases hlast with hnil | hl
    · subst hnil
      rfl
    · rcases List.eq_nil_or_concat trace with hnil | ⟨init, a, ha⟩
      · subst hnil
        rfl
      · subst ha
        simp at hl
        rw [hl, List.concat_eq_append]
        exact trail_append_loop 0 init
  omega

theorem ticks_bounded_by_outstanding_ticks_witness :
    (run (List.replicate 499 Step.tick ++ [Step.loop, Step.tick]) ⟨0, false, 0⟩).ticks ≤
      499 + trail 0 (List.replicate 499 Step.tick ++ [Step.loop, Step.tick]) ∧
    (run (List.replicate 500 Step.tick ++ [Step.loop]) ⟨0, false, 0⟩).ticks < 500 :=
  ⟨(ticks_bounded_by_outstanding_ticks
      (List.replicate 499 Step.tick ++ [Step.loop, Step.tick]) ⟨0, false, 0⟩ rfl).1,
   (ticks_bounded_by_outstanding_ticks
      (List.replicate 500 Step.tick ++ [Step.loop]) ⟨0, false, 0⟩ rfl).2
      (Or.inr (List.getLast?_concat _))⟩

/-- C5: whenever `SystemClock_Config` returns, it leaves `SystemCoreClock`
at 400,000,000, while `SystemCoreClockUpdate` recomputes 2,000,000,000 from
the registers it programmed (disjoint bit fields, status `SWS_PLL1` equal to
`0x08`): the `PLL1M` field is never written, so the divider read back is 1
instead of the documented 5. -/
theorem SystemClock_Config_then_Update (L : Layout) (E : Env) (fuel : Nat)
    (s s' : Machine) (hd : L.PllFieldsDisjoint) (hsws : L.RCC_CFGR_SWS_PLL1 = 0x08)
    (hhw : E.KeepsPllConfig) (hrun : SystemClock_Config L E fuel s = some s') :
    s'.SystemCoreClock = 400000000 ∧
    pllMField L s' = 0 ∧ pllNField L s' = 159 ∧ pllPField L s' = 1 ∧
    SystemCoreClockUpdate L s' = some { s' with SystemCoreClock := 2000000000 } := by
  obtain ⟨hdivr, hcfgr, hstat, hclk⟩ := SystemClock_Config_post L E fuel s s' hhw hrun
  have hM : pllMField L s' = 0 := by
    unfold pllMField
    rw [hcfgr]
    exact decode_PLL1M_written L hd
  have hN : pllNField L s' = 159 := by
    unfold pllNField
    rw [hdivr]
    exact decode_N1_written L hd
  have hP : pllPField L s' = 1 := by
    unfold pllPField
    rw [hdivr]
    exact decode_P1_written L hd
  have hsrc : pllSrcField L s' ≠ 0 := by
    unfold pllSrcField
    rw [hcfgr]
    exact decode_PLL1SRC_written L hd
  have h8 : swsField L s' = 0x08 := by
    unfold swsField
    rw [hstat, hsws]
  have hval : pllExpr 25000000 (uadd32 0 1) (uadd32 159 1) (uadd32 1 1) =
      some 2000000000 := by decide
  refine ⟨hclk, hM, hN, hP, ?_⟩
  rw [SystemCoreClockUpdate_pll_branch L s' h8, hM, hN, hP, if_neg hsrc, hval]
  rfl

theorem SystemClock_Config_then_Update_witness :
    SystemClock_Config exampleLayout promptEnv 3 resetMachine =
      some ⟨0x8000, 0x3030000, 0x0A, 0x230, 0x0A, 0x29F, 400000000⟩ ∧
    SystemCoreClockUpdate exampleLayout
        ⟨0x8000, 0x3030000, 0x0A, 0x230, 0x0A, 0x29F, 400000000⟩ =
      some ⟨0x8000, 0x3030000, 0x0A, 0x230, 0x0A, 0x29F, 2000000000⟩ :=
  ⟨by decide,
   (SystemClock_Config_then_Update exampleLayout promptEnv 3 resetMachine
      ⟨0x8000, 0x3030000, 0x0A, 0x230, 0x0A, 0x29F, 400000000⟩
      (by decide) (by decide) (fun _ => ⟨rfl, rfl⟩) (by decide)).2.2.2.2⟩

end STM32N6
